import Mathlib

/-!
Verification of the Manual-filament-Change-Tracking repository.

The development shallowly embeds the two Python scripts of the repository:
`tool_change_tracker.py` (pre-scan of a G-code file, filament-metadata
extraction, CSS colour classification, crash-safe JSON persistence) and
`update_tool_change.py` (the per-pause advance operation over the persisted
progress document).  Pure Python functions become Lean functions; file-system
effects are modelled as explicit values (file contents as `List String`,
the persisted document as a structure, write system calls as a trace of
operations); Python exceptions become `Option`/sum-like results.
-/

set_option maxRecDepth 4000

namespace ToolChange

/-! Python string primitives used by the scripts. -/

/-- Characters treated as whitespace by Python `str.strip` / `int` parsing
(restricted to the ASCII whitespace characters, the only ones that occur in
G-code files). -/
def pyWhitespace (c : Char) : Bool :=
  c = ' ' || c = '\t' || c = '\n' || c = '\r' || c = '\x0b' || c = '\x0c'

/-- Python `str.strip()` on a character list. -/
def pyStripChars (cs : List Char) : List Char :=
  ((cs.dropWhile pyWhitespace).reverse.dropWhile pyWhitespace).reverse

/-- Python `str.strip()`. -/
def pyStrip (s : String) : String := ⟨pyStripChars s.data⟩

/-- Python `str.split(sep)` for a non-empty separator, on character lists:
split at each leftmost non-overlapping occurrence of `sep`.  `acc` holds the
(reversed) characters of the current piece.  The first argument is fuel,
bounding the number of examined characters so that the recursion is
structural (and therefore computes inside the kernel); each step consumes at
least one character, so with fuel at least the input length — how `pySplit`
calls it — the zero-fuel fallback is never reached. -/
def pySplitAux (sep : List Char) : Nat → List Char → List Char → List (List Char)
  | _, [], acc => [acc.reverse]
  | 0, c :: rest, acc => [acc.reverse ++ c :: rest]
  | fuel + 1, c :: rest, acc =>
    if sep ≠ [] ∧ sep.isPrefixOf (c :: rest) then
      acc.reverse :: pySplitAux sep fuel (List.drop sep.length (c :: rest)) []
    else
      pySplitAux sep fuel rest (c :: acc)

/-- Python `s.split(sep)` (non-empty separator). -/
def pySplit (s sep : String) : List String :=
  (pySplitAux sep.data s.data.length s.data []).map fun cs => ⟨cs⟩

/-- Python `s.startswith(pre)`, on the character lists. -/
def pyStartsWith (s pre : String) : Bool :=
  pre.data.isPrefixOf s.data

/-- Python slice `s[i:j]` for `0 ≤ i ≤ j` (clamped at the end of the string,
never raising). -/
def pySlice (s : String) (i j : Nat) : String := ⟨(s.data.drop i).take (j - i)⟩

/-- Value of one hexadecimal digit. -/
def hexDigitVal (c : Char) : Option Nat :=
  if '0' ≤ c ∧ c ≤ '9' then some (c.toNat - 48)
  else if 'a' ≤ c ∧ c ≤ 'f' then some (c.toNat - 87)
  else if 'A' ≤ c ∧ c ≤ 'F' then some (c.toNat - 55)
  else none

/-- Accumulate the value of a hexadecimal digit string. -/
def hexNatAux : List Char → Nat → Option Nat
  | [], acc => some acc
  | c :: rest, acc =>
    match hexDigitVal c with
    | some d => hexNatAux rest (16 * acc + d)
    | none => none

/-- Python `int(s, 16)`: surrounding whitespace is stripped, one optional
sign is accepted, and the remainder must be a non-empty run of hex digits.
This is exact for strings of length at most 2 — the only arguments the
scripts ever pass are 2-character slices `hex_color[i:i+2]` — because the
underscore-grouping Python additionally allows needs at least 3 characters. -/
def pyInt16 (s : String) : Option Int :=
  let t := pyStripChars s.data
  let p : Bool × List Char :=
    match t with
    | '+' :: rest => (false, rest)
    | '-' :: rest => (true, rest)
    | _ => (false, t)
  match p.2 with
  | [] => none
  | _ => (hexNatAux p.2 0).map fun n => if p.1 then -(n : Int) else (n : Int)


/-! The embedded CSS named-colour table, from `tool_change_tracker.py`.
The Python source is a `dict` literal in which the key `"#FF00FF"` is written
twice (first with value `"Fuchsia"`, later with value `"Magenta"`).  Python
dict-literal construction inserts the pairs left to right; a repeated key
keeps its original position but receives the later value.  `cssSourcePairs`
transcribes the literal pairs exactly as written, `pyDictInsert` is the
dict-insertion step, and `CSS_NAMED_COLORS` is the resulting effective
key-value sequence in iteration order (the equality is proved in the theorem
for claim C9 below). -/

/-- One assignment `d[k] = v` on an insertion-ordered association list,
as performed by Python dict construction. -/
def pyDictInsert (l : List (String × String)) (kv : String × String) :
    List (String × String) :=
  if l.any fun p => p.1 == kv.1 then
    l.map fun p => if p.1 == kv.1 then kv else p
  else l ++ [kv]

/-- The 116 key-value pairs of the `CSS_NAMED_COLORS` dict literal, in source
order, including the duplicated key `"#FF00FF"`. -/
def cssSourcePairs : List (String × String) := [
  ("#F0F8FF", "AliceBlue"),
  ("#FAEBD7", "AntiqueWhite"),
  ("#00FFFF", "Aqua"),
  ("#7FFFD4", "Aquamarine"),
  ("#F0FFFF", "Azure"),
  ("#F5F5DC", "Beige"),
  ("#FFE4C4", "Bisque"),
  ("#000000", "Black"),
  ("#FFEBCD", "BlanchedAlmond"),
  ("#0000FF", "Blue"),
  ("#8A2BE2", "BlueViolet"),
  ("#A52A2A", "Brown"),
  ("#DEB887", "BurlyWood"),
  ("#5F9EA0", "CadetBlue"),
  ("#7FFF00", "Chartreuse"),
  ("#D2691E", "Chocolate"),
  ("#FF7F50", "Coral"),
  ("#6495ED", "CornflowerBlue"),
  ("#FFF8DC", "Cornsilk"),
  ("#DC143C", "Crimson"),
  ("#00008B", "DarkBlue"),
  ("#008B8B", "DarkCyan"),
  ("#B8860B", "DarkGoldenRod"),
  ("#A9A9A9", "DarkGray"),
  ("#006400", "DarkGreen"),
  ("#BDB76B", "DarkKhaki"),
  ("#8B008B", "DarkMagenta"),
  ("#556B2F", "DarkOliveGreen"),
  ("#FF8C00", "DarkOrange"),
  ("#9932CC", "DarkOrchid"),
  ("#8B0000", "DarkRed"),
  ("#E9967A", "DarkSalmon"),
  ("#8FBC8F", "DarkSeaGreen"),
  ("#483D8B", "DarkSlateBlue"),
  ("#2F4F4F", "DarkSlateGray"),
  ("#00CED1", "DarkTurquoise"),
  ("#9400D3", "DarkViolet"),
  ("#FF1493", "DeepPink"),
  ("#00BFFF", "DeepSkyBlue"),
  ("#696969", "DimGray"),
  ("#1E90FF", "DodgerBlue"),
  ("#B22222", "FireBrick"),
  ("#FFFAF0", "FloralWhite"),
  ("#228B22", "ForestGreen"),
  ("#FF00FF", "Fuchsia"),
  ("#DCDCDC", "Gainsboro"),
  ("#FFD700", "Gold"),
  ("#DAA520", "GoldenRod"),
  ("#808080", "Gray"),
  ("#008000", "Green"),
  ("#ADFF2F", "GreenYellow"),
  ("#F0FFF0", "HoneyDew"),
  ("#FF69B4", "HotPink"),
  ("#CD5C5C", "IndianRed"),
  ("#4B0082", "Indigo"),
  ("#FFFFF0", "Ivory"),
  ("#F0E68C", "Khaki"),
  ("#E6E6FA", "Lavender"),
  ("#FFF0F5", "LavenderBlush"),
  ("#7CFC00", "LawnGreen"),
  ("#FFFACD", "LemonChiffon"),
  ("#ADD8E6", "LightBlue"),
  ("#F08080", "LightCoral"),
  ("#E0FFFF", "LightCyan"),
  ("#D3D3D3", "LightGray"),
  ("#90EE90", "LightGreen"),
  ("#FFB6C1", "LightPink"),
  ("#FFA07A", "LightSalmon"),
  ("#20B2AA", "LightSeaGreen"),
  ("#87CEFA", "LightSkyBlue"),
  ("#B0C4DE", "LightSteelBlue"),
  ("#FFFFE0", "LightYellow"),
  ("#00FF00", "Lime"),
  ("#32CD32", "LimeGreen"),
  ("#FF00FF", "Magenta"),
  ("#800000", "Maroon"),
  ("#000080", "Navy"),
  ("#808000", "Olive"),
  ("#FFA500", "Orange"),
  ("#FF4500", "OrangeRed"),
  ("#DA70D6", "Orchid"),
  ("#EEE8AA", "PaleGoldenRod"),
  ("#98FB98", "PaleGreen"),
  ("#AFEEEE", "PaleTurquoise"),
  ("#DB7093", "PaleVioletRed"),
  ("#FFDAB9", "PeachPuff"),
  ("#CD853F", "Peru"),
  ("#FFC0CB", "Pink"),
  ("#DDA0DD", "Plum"),
  ("#B0E0E6", "PowderBlue"),
  ("#800080", "Purple"),
  ("#FF0000", "Red"),
  ("#BC8F8F", "RosyBrown"),
  ("#4169E1", "RoyalBlue"),
  ("#8B4513", "SaddleBrown"),
  ("#FA8072", "Salmon"),
  ("#F4A460", "SandyBrown"),
  ("#2E8B57", "SeaGreen"),
  ("#A0522D", "Sienna"),
  ("#C0C0C0", "Silver"),
  ("#87CEEB", "SkyBlue"),
  ("#6A5ACD", "SlateBlue"),
  ("#708090", "SlateGray"),
  ("#FFFAFA", "Snow"),
  ("#00FF7F", "SpringGreen"),
  ("#4682B4", "SteelBlue"),
  ("#D2B48C", "Tan"),
  ("#008080", "Teal"),
  ("#D8BFD8", "Thistle"),
  ("#FF6347", "Tomato"),
  ("#40E0D0", "Turquoise"),
  ("#EE82EE", "Violet"),
  ("#F5DEB3", "Wheat"),
  ("#FFFFFF", "White"),
  ("#FFFF00", "Yellow"),
  ("#9ACD32", "YellowGreen")]

/-- The effective dict contents in iteration order: 115 entries; the slot of
the duplicated key `"#FF00FF"` (originally `"Fuchsia"`) holds `"Magenta"`,
and no separate later entry exists. -/
def CSS_NAMED_COLORS : List (String × String) := [
  ("#F0F8FF", "AliceBlue"),
  ("#FAEBD7", "AntiqueWhite"),
  ("#00FFFF", "Aqua"),
  ("#7FFFD4", "Aquamarine"),
  ("#F0FFFF", "Azure"),
  ("#F5F5DC", "Beige"),
  ("#FFE4C4", "Bisque"),
  ("#000000", "Black"),
  ("#FFEBCD", "BlanchedAlmond"),
  ("#0000FF", "Blue"),
  ("#8A2BE2", "BlueViolet"),
  ("#A52A2A", "Brown"),
  ("#DEB887", "BurlyWood"),
  ("#5F9EA0", "CadetBlue"),
  ("#7FFF00", "Chartreuse"),
  ("#D2691E", "Chocolate"),
  ("#FF7F50", "Coral"),
  ("#6495ED", "CornflowerBlue"),
  ("#FFF8DC", "Cornsilk"),
  ("#DC143C", "Crimson"),
  ("#00008B", "DarkBlue"),
  ("#008B8B", "DarkCyan"),
  ("#B8860B", "DarkGoldenRod"),
  ("#A9A9A9", "DarkGray"),
  ("#006400", "DarkGreen"),
  ("#BDB76B", "DarkKhaki"),
  ("#8B008B", "DarkMagenta"),
  ("#556B2F", "DarkOliveGreen"),
  ("#FF8C00", "DarkOrange"),
  ("#9932CC", "DarkOrchid"),
  ("#8B0000", "DarkRed"),
  ("#E9967A", "DarkSalmon"),
  ("#8FBC8F", "DarkSeaGreen"),
  ("#483D8B", "DarkSlateBlue"),
  ("#2F4F4F", "DarkSlateGray"),
  ("#00CED1", "DarkTurquoise"),
  ("#9400D3", "DarkViolet"),
  ("#FF1493", "DeepPink"),
  ("#00BFFF", "DeepSkyBlue"),
  ("#696969", "DimGray"),
  ("#1E90FF", "DodgerBlue"),
  ("#B22222", "FireBrick"),
  ("#FFFAF0", "FloralWhite"),
  ("#228B22", "ForestGreen"),
  ("#FF00FF", "Magenta"),
  ("#DCDCDC", "Gainsboro"),
  ("#FFD700", "Gold"),
  ("#DAA520", "GoldenRod"),
  ("#808080", "Gray"),
  ("#008000", "Green"),
  ("#ADFF2F", "GreenYellow"),
  ("#F0FFF0", "HoneyDew"),
  ("#FF69B4", "HotPink"),
  ("#CD5C5C", "IndianRed"),
  ("#4B0082", "Indigo"),
  ("#FFFFF0", "Ivory"),
  ("#F0E68C", "Khaki"),
  ("#E6E6FA", "Lavender"),
  ("#FFF0F5", "LavenderBlush"),
  ("#7CFC00", "LawnGreen"),
  ("#FFFACD", "LemonChiffon"),
  ("#ADD8E6", "LightBlue"),
  ("#F08080", "LightCoral"),
  ("#E0FFFF", "LightCyan"),
  ("#D3D3D3", "LightGray"),
  ("#90EE90", "LightGreen"),
  ("#FFB6C1", "LightPink"),
  ("#FFA07A", "LightSalmon"),
  ("#20B2AA", "LightSeaGreen"),
  ("#87CEFA", "LightSkyBlue"),
  ("#B0C4DE", "LightSteelBlue"),
  ("#FFFFE0", "LightYellow"),
  ("#00FF00", "Lime"),
  ("#32CD32", "LimeGreen"),
  ("#800000", "Maroon"),
  ("#000080", "Navy"),
  ("#808000", "Olive"),
  ("#FFA500", "Orange"),
  ("#FF4500", "OrangeRed"),
  ("#DA70D6", "Orchid"),
  ("#EEE8AA", "PaleGoldenRod"),
  ("#98FB98", "PaleGreen"),
  ("#AFEEEE", "PaleTurquoise"),
  ("#DB7093", "PaleVioletRed"),
  ("#FFDAB9", "PeachPuff"),
  ("#CD853F", "Peru"),
  ("#FFC0CB", "Pink"),
  ("#DDA0DD", "Plum"),
  ("#B0E0E6", "PowderBlue"),
  ("#800080", "Purple"),
  ("#FF0000", "Red"),
  ("#BC8F8F", "RosyBrown"),
  ("#4169E1", "RoyalBlue"),
  ("#8B4513", "SaddleBrown"),
  ("#FA8072", "Salmon"),
  ("#F4A460", "SandyBrown"),
  ("#2E8B57", "SeaGreen"),
  ("#A0522D", "Sienna"),
  ("#C0C0C0", "Silver"),
  ("#87CEEB", "SkyBlue"),
  ("#6A5ACD", "SlateBlue"),
  ("#708090", "SlateGray"),
  ("#FFFAFA", "Snow"),
  ("#00FF7F", "SpringGreen"),
  ("#4682B4", "SteelBlue"),
  ("#D2B48C", "Tan"),
  ("#008080", "Teal"),
  ("#D8BFD8", "Thistle"),
  ("#FF6347", "Tomato"),
  ("#40E0D0", "Turquoise"),
  ("#EE82EE", "Violet"),
  ("#F5DEB3", "Wheat"),
  ("#FFFFFF", "White"),
  ("#FFFF00", "Yellow"),
  ("#9ACD32", "YellowGreen")]

/-! The colour classifier `closest_css_color`. -/

/-- Decoding `[int(hex_color[i:i+2], 16) for i in (1, 3, 5)]`: the three
2-character slices of the argument parsed as hex, or `none` when any parse
raises `ValueError` (caught by the `except` of `closest_css_color`). -/
def hexTriple (s : String) : Option (Int × Int × Int) :=
  match pyInt16 (pySlice s 1 3), pyInt16 (pySlice s 3 5), pyInt16 (pySlice s 5 7) with
  | some r, some g, some b => some (r, g, b)
  | _, _, _ => none

/-- Squared Euclidean distance between two RGB triples.  The Python code
compares `sqrt` of these values with strict `<`; since the squared distances
are integers below 2 ^ 18, IEEE double `sqrt` is strictly monotone and
injective on them, so the comparisons agree with integer comparison of the
squares. -/
def distSq (a b : Int × Int × Int) : Int :=
  (a.1 - b.1) ^ 2 + (a.2.1 - b.2.1) ^ 2 + (a.2.2 - b.2.2) ^ 2

/-- One iteration of the minimum-tracking loop of `closest_css_color`.  The
accumulator is `none` while `closest_color is None` (with `min_distance =
inf`, so the first comparison always succeeds), otherwise
`some (closest_color, min_distance_squared)`: the entry is taken exactly
when `distance < min_distance`. -/
def cssStep (rgb : Int × Int × Int) (acc : Option (String × Int))
    (rgb2 : Int × Int × Int) (name : String) : Option (String × Int) :=
  match acc with
  | none => some (name, distSq rgb rgb2)
  | some (n, m) =>
    if distSq rgb rgb2 < m then some (name, distSq rgb rgb2) else some (n, m)

/-- The minimum-tracking loop of `closest_css_color` over the colour table.
The outer `none` result models an exception while decoding a table entry
(propagated to the enclosing `except`); it cannot occur on the well-formed
concrete table. -/
def cssLoop (rgb : Int × Int × Int) :
    List (String × String) → Option (String × Int) → Option (Option (String × Int))
  | [], acc => some acc
  | (cssHex, name) :: rest, acc =>
    match hexTriple cssHex with
    | none => none
    | some rgb2 => cssLoop rgb rest (cssStep rgb acc rgb2 name)

/-- The function `closest_css_color(hex_color)` of `tool_change_tracker.py`:
decode the argument, scan the colour table for the minimum-distance name, and
return `"Unknown"` on any exception or when the final `closest_color` is
falsy (`closest_color or "Unknown"`). -/
def closest_css_color (hex_color : String) : String :=
  match hexTriple hex_color with
  | none => "Unknown"
  | some rgb =>
    match cssLoop rgb CSS_NAMED_COLORS none with
    | none => "Unknown"
    | some none => "Unknown"
    | some (some (name, _)) => if name = "" then "Unknown" else name


/-! The filament-metadata extractor `extract_filament_info`.  The file is
modelled by its list of lines (`readlines` up to newline handling, which none
of the parsing depends on: `strip()` is applied before any use). -/

/-- One parsed descriptor from the `filament_settings_id` source. -/
structure FilamentType where
  brand : String
  material : String
  full_name : String
deriving DecidableEq

/-- One merged per-tool metadata record. -/
structure FilamentInfo where
  hex_color : String
  color_name : String
  brand : String
  material : String
  full_name : String
deriving DecidableEq

/-- Step of the scan for `re.findall` with pattern "([^"]*)" : a state
machine that is outside or inside a quoted segment; segments close only at a
quote character, and an unterminated segment at end of input is discarded,
exactly as the regex engine behaves.  State: (inside, current segment
reversed, finished segments reversed-accumulated). -/
def quotedScanStep (st : Bool × List Char × List (List Char)) (c : Char) :
    Bool × List Char × List (List Char) :=
  match st with
  | (true, cur, done) =>
    if c = '"' then (false, [], cur.reverse :: done)
    else (true, c :: cur, done)
  | (false, _, done) =>
    if c = '"' then (true, [], done)
    else (false, [], done)

/-- All double-quoted segments of a string, left to right. -/
def findQuoted (s : String) : List String :=
  ((s.data.foldl quotedScanStep (false, [], [])).2.2).reverse.map fun cs => ⟨cs⟩

/-- Parsing of one `"; filament_colour ="` line:
`line.strip().split(" = ")[1].split(";")`, keeping the non-empty tokens that
start with `#`, each paired with its classified colour name.  `none` models
the `IndexError` raised when the stripped line has no `" = "` separator
(caught by the enclosing `except`, aborting the whole extraction). -/
def parseColourLine (line : String) : Option (List (String × String)) :=
  match (pySplit (pyStrip line) " = ").get? 1 with
  | none => none
  | some v =>
    some (((pySplit v ";").filter fun t => !t.data.isEmpty && pyStartsWith t "#").map
      fun t => (t, closest_css_color t))

/-- Parsing of one `"; filament_settings_id ="` line: the quoted descriptors
of `line.strip().split(" = ")[1]`; a descriptor splitting (on single spaces)
into at least two parts contributes its first part as brand and second as
material, otherwise brand and material are `"Unknown"`; the full descriptor
is kept verbatim in both cases.  `none` models the `IndexError` as above. -/
def parseSettingsLine (line : String) : Option (List FilamentType) :=
  match (pySplit (pyStrip line) " = ").get? 1 with
  | none => none
  | some settings_str =>
    some ((findQuoted settings_str).map fun ft =>
      let parts := pySplit ft " "
      if 2 ≤ parts.length then
        { brand := parts.getD 0 "", material := parts.getD 1 "", full_name := ft }
      else
        { brand := "Unknown", material := "Unknown", full_name := ft })

/-- The line loop of `extract_filament_info`: accumulate colour entries and
type entries across all lines (several marker lines append positionally).
`none` models an exception escaping the loop: the partial accumulations are
discarded, control reaches the `except` handler, and the merged list stays
empty. -/
def collectSources : List String → List (String × String) → List FilamentType →
    Option (List (String × String) × List FilamentType)
  | [], colors, types => some (colors, types)
  | line :: rest, colors, types =>
    let step1 : Option (List (String × String)) :=
      if pyStartsWith line "; filament_colour =" then
        (parseColourLine line).map fun new => colors ++ new
      else some colors
    match step1 with
    | none => none
    | some colors1 =>
      let step2 : Option (List FilamentType) :=
        if pyStartsWith line "; filament_settings_id =" then
          (parseSettingsLine line).map fun new => types ++ new
        else some types
      match step2 with
      | none => none
      | some types1 => collectSources rest colors1 types1

/-- The positional merge: one record per index up to the longer source, with
`("#FFFFFF", "Unknown")` and the all-Unknown type record substituted beyond
the shorter source. -/
def mergeInfo (colors : List (String × String)) (types : List FilamentType) :
    List FilamentInfo :=
  (List.range (max colors.length types.length)).map fun i =>
    let ci := colors.getD i ("#FFFFFF", "Unknown")
    let ti := types.getD i ⟨"Unknown", "Unknown", "Unknown"⟩
    { hex_color := ci.1, color_name := ci.2, brand := ti.brand,
      material := ti.material, full_name := ti.full_name }

/-- The `default_colors` index-to-name dict of the fallback branch. -/
def default_colors (i : Nat) : String :=
  match i with
  | 0 => "Yellow"
  | 1 => "Blue"
  | 2 => "Silver"
  | 3 => "Green"
  | 4 => "White"
  | _ => "Unknown"

/-- The hardcoded 5-slot fallback list: `hex_color` is the f-string `#{i}`,
the name comes from `default_colors`, everything else is `"Unknown"`. -/
def defaultFilamentInfo : List FilamentInfo :=
  (List.range 5).map fun i =>
    { hex_color := "#" ++ toString i, color_name := default_colors i,
      brand := "Unknown", material := "Unknown", full_name := "Unknown" }

/-- The function `extract_filament_info(gcode_file)` on the file's lines:
collect both sources (an exception yields no records), merge positionally,
and substitute the hardcoded default list when the result is empty. -/
def extract_filament_info (lines : List String) : List FilamentInfo :=
  let fi : List FilamentInfo :=
    match collectSources lines [] [] with
    | none => []
    | some (colors, types) => mergeInfo colors types
  if fi.isEmpty then defaultFilamentInfo else fi

/-! The G-code scanner of `pre_scan_gcode`. -/

/-- One persisted tool-change event. -/
structure ToolChangeEvent where
  tool_number : Nat
  color : String
  brand : String
  material : String
  full_name : String
  line : Nat
deriving DecidableEq

/-- The persisted progress document (`total_changes` and `current_change`
are Python ints, hence `Int`). -/
structure ProgressState where
  total_changes : Int
  current_change : Int
  changes : List ToolChangeEvent
deriving DecidableEq

/-- The literal part of the marker pattern `; MANUAL_TOOL_CHANGE T(\d+)`. -/
def markerText : List Char := "; MANUAL_TOOL_CHANGE T".data

/-- Decimal value of a digit run (`int` on the captured group). -/
def natOfDigits (cs : List Char) : Nat :=
  cs.foldl (fun a c => 10 * a + (c.toNat - 48)) 0

/-- Leftmost match of `re.search(r'; MANUAL_TOOL_CHANGE T(\d+)', line)` on a
character list: at each start position the literal must be followed by at
least one digit (`\d+` then captures the maximal digit run, which `int`
converts); otherwise the engine retries from the next position. -/
def findMarker : List Char → Option Nat
  | [] => none
  | c :: rest =>
    if markerText.isPrefixOf (c :: rest) then
      let ds := ((c :: rest).drop markerText.length).takeWhile Char.isDigit
      if ds.isEmpty then findMarker rest else some (natOfDigits ds)
    else findMarker rest

/-- Marker match on one source line. -/
def lineMatch (s : String) : Option Nat := findMarker s.data

/-- The event built for a match of tool `t` on 1-based line `ln`: fields are
copied from `filament_info[t]` when `t < len(filament_info)`, else the
explicit all-Unknown fallback of the source. -/
def mkEvent (fi : List FilamentInfo) (t ln : Nat) : ToolChangeEvent :=
  match fi.get? t with
  | some info =>
    { tool_number := t, color := info.color_name, brand := info.brand,
      material := info.material, full_name := info.full_name, line := ln }
  | none =>
    { tool_number := t, color := "Unknown", brand := "Unknown",
      material := "Unknown", full_name := "Unknown", line := ln }

/-- The scan loop: `enumerate(f, 1)` with one appended event per matching
line. -/
def scanAux (fi : List FilamentInfo) : List String → Nat → List ToolChangeEvent
  | [], _ => []
  | l :: rest, n =>
    match lineMatch l with
    | some t => mkEvent fi t n :: scanAux fi rest (n + 1)
    | none => scanAux fi rest (n + 1)

/-- The document built by the scan loop for a given filament table:
`total_changes` is incremented once per appended event, so it equals the
length of `changes`; `current_change` starts and stays 0. -/
def scanDocument (fi : List FilamentInfo) (lines : List String) : ProgressState :=
  { total_changes := ((scanAux fi lines 1).length : Int),
    current_change := 0,
    changes := scanAux fi lines 1 }

/-- The core of `pre_scan_gcode(gcode_path)` on the file's lines: extract
the filament table from the same file, then run the marker loop.  (The
path-resolution and existence checks preceding this, and the choice between
dry-run and persisting, are outside the document computation.) -/
def pre_scan_gcode (lines : List String) : ProgressState :=
  scanDocument (extract_filament_info lines) lines

/-- The 1-based line numbers of the marker lines, in scan order (the same
recursion as `scanAux`, keeping only the counter). -/
def matchingAux : List String → Nat → List Nat
  | [], _ => []
  | l :: rest, n =>
    match lineMatch l with
    | some _ => n :: matchingAux rest (n + 1)
    | none => matchingAux rest (n + 1)

/-- Line numbers of all marker lines of a file, 1-based. -/
def matchingLineNumbers (lines : List String) : List Nat := matchingAux lines 1


/-! The progress-state store of `tool_change_tracker.py`. -/

/-- Parsed JSON values, as `json.load` produces them in Python.  Non-integer
numbers are only distinguished by their type tag (all validation in the
scripts is `isinstance`-based), so they carry no payload. -/
inductive JVal where
  | jnull : JVal
  | jbool : Bool → JVal
  | jint : Int → JVal
  | jfloat : JVal
  | jstr : String → JVal
  | jarr : List JVal → JVal
  | jobj : List (String × JVal) → JVal

/-- Python `dict` key lookup on the parsed object (`data["k"]` / `"k" in
data`). -/
def jLookup (fields : List (String × JVal)) (k : String) : Option JVal :=
  (fields.find? fun p => p.1 == k).map fun p => p.2

/-- Python `isinstance(x, int)`: true for ints and also for bools, since
`bool` is a subclass of `int`. -/
def pyIsInt : JVal → Bool
  | .jint _ => true
  | .jbool _ => true
  | _ => false

/-- Python `isinstance(x, list)`. -/
def pyIsList : JVal → Bool
  | .jarr _ => true
  | _ => false

/-- The `default_data` document of `safe_read_json`. -/
def default_data : JVal :=
  .jobj [("total_changes", .jint 0), ("current_change", .jint 0),
         ("changes", .jarr [])]

/-- The coarse schema accepted by `safe_read_json`: a dict carrying the
three required keys, with `total_changes` and `current_change` ints (in the
`isinstance` sense) and `changes` a list. -/
def docSchemaOk (v : JVal) : Bool :=
  match v with
  | .jobj fields =>
    match jLookup fields "total_changes", jLookup fields "current_change",
        jLookup fields "changes" with
    | some t, some c, some ch => pyIsInt t && pyIsInt c && pyIsList ch
    | _, _, _ => false
  | _ => false

/-- The function `safe_read_json(filepath)`.  The argument models the file:
`none` when the file does not exist or its contents fail to parse as JSON
(`json.JSONDecodeError`, or any other read error — every branch returns the
default), `some v` when it parses to `v`.  Structure, required keys and
coarse types are then validated in turn; any violation yields `default_data`
and a valid document is returned unchanged. -/
def safe_read_json (file : Option JVal) : JVal :=
  match file with
  | none => default_data
  | some v => if docSchemaOk v then v else default_data

/-- File-system operations performed on the state document's path; the
payload is the serialized document. -/
inductive FsOp where
  | writeTempFile : ProgressState → FsOp
  | renameTempOverTarget : FsOp
  | writeTargetInPlace : ProgressState → FsOp
deriving DecidableEq

/-- The write trace of `safe_write_json(filepath, data)`: the document is
dumped to a fresh `mkstemp` temporary file created in the target's
directory, which is then `os.replace`d (an atomic rename) over the target.
(The preceding dict/required-keys validation always passes for the documents
the scan builds, and the trailing `chown` under sudo does not touch the
contents.) -/
def safe_write_json (data : ProgressState) : List FsOp :=
  [.writeTempFile data, .renameTempOverTarget]

/-- The write trace of a (non-dry-run) `pre_scan_gcode` invocation: the
freshly scanned document goes through `safe_write_json`. -/
def scanWriteTrace (lines : List String) : List FsOp :=
  safe_write_json (pre_scan_gcode lines)

/-- A trace that is exactly the crash-safe write-to-temp-then-atomic-rename
pattern. -/
def isAtomicWritePattern : List FsOp → Bool
  | [.writeTempFile _, .renameTempOverTarget] => true
  | _ => false

/-! The advance operation `update_tool_change` of `update_tool_change.py`. -/

/-- Python list indexing `l[i]` with an `int` index: negative indices count
from the end, out-of-range indices raise `IndexError` (`none`). -/
def pyIndex {α : Type} (l : List α) (i : Int) : Option α :=
  let j := if i < 0 then i + (l.length : Int) else i
  if 0 ≤ j ∧ j < (l.length : Int) then l.get? j.toNat else none

/-- Outcome of one `update_tool_change()` invocation on an existing
document.  `completed` is the `current_change >= total_changes` branch:
message `Tool changes completed.`, exit 0, nothing written.  `report e d'`
is the successful branch: `d'` (the input with `current_change` incremented
by 1) is written back to the data file and the message reports
`current_change` of `total_changes` with `e`'s color, tool number and line.
`indexCrash` is an uncaught `IndexError` from `data["changes"]
[current_change - 1]`: the process dies with a non-zero exit, and since the
indexing happens before the `open(..., "w")`, the on-disk document is left
exactly as it was — the increment existed only in memory. -/
inductive AdvanceOutcome where
  | completed : AdvanceOutcome
  | report : ToolChangeEvent → ProgressState → AdvanceOutcome
  | indexCrash : AdvanceOutcome
deriving DecidableEq

/-- The function `update_tool_change()` on a parsed document.  (The guard
before it — `DATA_FILE` missing prints an error and exits 1 — precedes any
document handling and is not part of this transition; the `data.get`
defaults coincide with the structure fields for every document that carries
the three keys, which all documents under study do.) -/
def update_tool_change (d : ProgressState) : AdvanceOutcome :=
  if d.total_changes ≤ d.current_change then .completed
  else
    match pyIndex d.changes (d.current_change + 1 - 1) with
    | none => .indexCrash
    | some e => .report e { d with current_change := d.current_change + 1 }

/-- The write trace of one `update_tool_change()` invocation: the successful
branch rewrites the data file in place with a plain `open(DATA_FILE, "w")` /
`json.dump`; the other branches write nothing. -/
def advanceWriteTrace (d : ProgressState) : List FsOp :=
  match update_tool_change d with
  | .report _ d' => [.writeTargetInPlace d']
  | _ => []

/-- The on-disk document after `n` successive `update_tool_change`
invocations: a successful invocation persists its updated document, the
other outcomes leave the file untouched. -/
def iterAdvance (d : ProgressState) : Nat → ProgressState
  | 0 => d
  | n + 1 =>
    match update_tool_change (iterAdvance d n) with
    | .report _ d' => d'
    | _ => iterAdvance d n

/-- Outcome of the `n`-th (1-indexed) invocation after the store holds `d`. -/
def nthAdvance (d : ProgressState) (n : Nat) : AdvanceOutcome :=
  update_tool_change (iterAdvance d (n - 1))

/-- The document invariant of the spec: the cursor stays between 0 and the
total. -/
def stateInv (d : ProgressState) : Prop :=
  0 ≤ d.current_change ∧ d.current_change ≤ d.total_changes

instance (d : ProgressState) : Decidable (stateInv d) := by
  unfold stateInv; infer_instance


/-- Default event used only to state total list access where the index is
separately proved in range. -/
instance : Inhabited ToolChangeEvent :=
  ⟨{ tool_number := 0, color := "", brand := "", material := "",
     full_name := "", line := 0 }⟩

/-! Lemmas about the scan loop. -/

lemma mkEvent_line (fi : List FilamentInfo) (t ln : Nat) :
    (mkEvent fi t ln).line = ln := by
  unfold mkEvent; cases fi.get? t <;> rfl

lemma mkEvent_tool (fi : List FilamentInfo) (t ln : Nat) :
    (mkEvent fi t ln).tool_number = t := by
  unfold mkEvent; cases fi.get? t <;> rfl

lemma mkEvent_oor (fi : List FilamentInfo) (t ln : Nat) (h : fi.get? t = none) :
    mkEvent fi t ln
      = { tool_number := t, color := "Unknown", brand := "Unknown",
          material := "Unknown", full_name := "Unknown", line := ln } := by
  unfold mkEvent; rw [h]

lemma scanAux_cons_some (fi : List FilamentInfo) (l : String)
    (rest : List String) (n t : Nat) (h : lineMatch l = some t) :
    scanAux fi (l :: rest) n = mkEvent fi t n :: scanAux fi rest (n + 1) := by
  simp [scanAux, h]

lemma scanAux_cons_none (fi : List FilamentInfo) (l : String)
    (rest : List String) (n : Nat) (h : lineMatch l = none) :
    scanAux fi (l :: rest) n = scanAux fi rest (n + 1) := by
  simp [scanAux, h]

lemma matchingAux_cons_some (l : String) (rest : List String) (n t : Nat)
    (h : lineMatch l = some t) :
    matchingAux (l :: rest) n = n :: matchingAux rest (n + 1) := by
  simp [matchingAux, h]

lemma matchingAux_cons_none (l : String) (rest : List String) (n : Nat)
    (h : lineMatch l = none) :
    matchingAux (l :: rest) n = matchingAux rest (n + 1) := by
  simp [matchingAux, h]

lemma scanAux_map_line (fi : List FilamentInfo) :
    ∀ (lines : List String) (n : Nat),
      (scanAux fi lines n).map (fun e => e.line) = matchingAux lines n
  | [], _ => rfl
  | l :: rest, n => by
    cases h : lineMatch l with
    | none =>
      rw [scanAux_cons_none fi l rest n h, matchingAux_cons_none l rest n h]
      exact scanAux_map_line fi rest (n + 1)
    | some t =>
      rw [scanAux_cons_some fi l rest n t h, matchingAux_cons_some l rest n t h,
        List.map_cons, mkEvent_line, scanAux_map_line fi rest (n + 1)]

lemma scanAux_length (fi : List FilamentInfo) (lines : List String) (n : Nat) :
    (scanAux fi lines n).length = (matchingAux lines n).length := by
  have := congrArg List.length (scanAux_map_line fi lines n)
  simpa using this

lemma matchingAux_enumFrom :
    ∀ (lines : List String) (n : Nat),
      matchingAux lines n
        = ((List.enumFrom n lines).filter fun p => (lineMatch p.2).isSome).map
            Prod.fst
  | [], _ => rfl
  | l :: rest, n => by
    simp only [List.enumFrom, List.filter]
    cases h : lineMatch l with
    | none =>
      rw [matchingAux_cons_none l rest n h]
      simp [h, matchingAux_enumFrom rest (n + 1)]
    | some t =>
      rw [matchingAux_cons_some l rest n t h]
      simp [h, matchingAux_enumFrom rest (n + 1)]

lemma matchingAux_chain :
    ∀ (lines : List String) (n : Nat),
      List.Chain' (· < ·) (matchingAux lines n)
        ∧ ∀ m ∈ matchingAux lines n, n ≤ m
  | [], _ => by simp [matchingAux]
  | l :: rest, n => by
    obtain ⟨ihc, ihb⟩ := matchingAux_chain rest (n + 1)
    cases h : lineMatch l with
    | none =>
      rw [matchingAux_cons_none l rest n h]
      exact ⟨ihc, fun m hm => Nat.le_of_succ_le (ihb m hm)⟩
    | some t =>
      rw [matchingAux_cons_some l rest n t h]
      constructor
      · refine List.chain'_cons'.mpr ⟨fun b hb => ?_, ihc⟩
        have : n + 1 ≤ b := ihb b (List.mem_of_mem_head? hb)
        omega
      · intro m hm
        rcases List.mem_cons.mp hm with rfl | hm2
        · exact Nat.le_refl m
        · exact Nat.le_of_succ_le (ihb m hm2)

lemma scanAux_out_of_range (fi : List FilamentInfo) :
    ∀ (lines : List String) (n : Nat) (e : ToolChangeEvent),
      e ∈ scanAux fi lines n → fi.length ≤ e.tool_number →
        e.color = "Unknown" ∧ e.brand = "Unknown" ∧ e.material = "Unknown"
          ∧ e.full_name = "Unknown"
  | [], _, _ => by simp [scanAux]
  | l :: rest, n, e => by
    cases h : lineMatch l with
    | none =>
      rw [scanAux_cons_none fi l rest n h]
      exact scanAux_out_of_range fi rest (n + 1) e
    | some t =>
      rw [scanAux_cons_some fi l rest n t h]
      intro hmem hge
      rcases List.mem_cons.mp hmem with rfl | hm2
      · rcases hg : fi.get? t with _ | info
        · rw [mkEvent_oor fi t n hg]
          exact ⟨rfl, rfl, rfl, rfl⟩
        · have hlt : t < fi.length := (List.get?_eq_some.mp hg).1
          rw [mkEvent_tool] at hge
          omega
      · exact scanAux_out_of_range fi rest (n + 1) e hm2 hge


/-- Claim C4: scanning a file with exactly K marker lines yields a document
with `total_changes = K` and `len(changes) = K`, whose events carry the
1-based source line numbers of their markers (the `fst` of the filtered
1-based enumeration of the file) in strictly increasing order; a file with
zero markers yields the zero-total empty state rather than an error. -/
theorem scan_counts_and_line_numbers (lines : List String) :
    (pre_scan_gcode lines).total_changes
        = ((matchingLineNumbers lines).length : Int)
  ∧ (pre_scan_gcode lines).changes.length = (matchingLineNumbers lines).length
  ∧ (pre_scan_gcode lines).changes.map (fun e => e.line)
        = matchingLineNumbers lines
  ∧ matchingLineNumbers lines
        = ((List.enumFrom 1 lines).filter fun p => (lineMatch p.2).isSome).map
            Prod.fst
  ∧ List.Chain' (· < ·) (matchingLineNumbers lines)
  ∧ (matchingLineNumbers lines = [] →
        pre_scan_gcode lines
          = { total_changes := 0, current_change := 0, changes := [] }) := by
  set fi := extract_filament_info lines with hfi
  refine ⟨?_, ?_, ?_, ?_, ?_, ?_⟩
  · simp [pre_scan_gcode, scanDocument, ← hfi, scanAux_length,
      matchingLineNumbers]
  · simp [pre_scan_gcode, scanDocument, ← hfi, scanAux_length,
      matchingLineNumbers]
  · simpa [pre_scan_gcode, scanDocument, ← hfi, matchingLineNumbers]
      using scanAux_map_line fi lines 1
  · exact matchingAux_enumFrom lines 1
  · exact (matchingAux_chain lines 1).1
  · intro h
    have h2 : (scanAux fi lines 1).map (fun e => e.line) = [] := by
      rw [scanAux_map_line fi lines 1]; exact h
    have h3 : scanAux fi lines 1 = [] := List.map_eq_nil_iff.mp h2
    simp [pre_scan_gcode, scanDocument, ← hfi, h3]

/-- Witness for C4, discharging the implication of the zero-marker case at a
concrete markerless file. -/
theorem scan_counts_and_line_numbers_witness :
    matchingLineNumbers ["G1 X0", "; no marker here"] = []
  ∧ pre_scan_gcode ["G1 X0", "; no marker here"]
      = { total_changes := 0, current_change := 0, changes := [] } :=
  ⟨by decide,
   (scan_counts_and_line_numbers ["G1 X0", "; no marker here"]).2.2.2.2.2
     (by decide)⟩

/-- Claim C8: a marker whose tool number is at least the length of the
extracted filament-info list never makes the scan raise: its event is built
from the all-Unknown record and is still appended and counted (the event
count equals the marker count regardless). -/
theorem scan_tool_out_of_range_safe (lines : List String) :
    (pre_scan_gcode lines).changes.length = (matchingLineNumbers lines).length
  ∧ ∀ e ∈ (pre_scan_gcode lines).changes,
      (extract_filament_info lines).length ≤ e.tool_number →
        e.color = "Unknown" ∧ e.brand = "Unknown" ∧ e.material = "Unknown"
          ∧ e.full_name = "Unknown" := by
  refine ⟨scanAux_length (extract_filament_info lines) lines 1, ?_⟩
  intro e hmem hge
  exact scanAux_out_of_range (extract_filament_info lines) lines 1 e hmem hge

/-- Witness for C8: a file whose single marker references tool 9 while the
extracted (default) filament list has 5 entries. -/
theorem scan_tool_out_of_range_safe_witness :
    (extract_filament_info ["; MANUAL_TOOL_CHANGE T9"]).length ≤ 9
  ∧ ((ToolChangeEvent.mk 9 "Unknown" "Unknown" "Unknown" "Unknown" 1).color
        = "Unknown"
    ∧ (ToolChangeEvent.mk 9 "Unknown" "Unknown" "Unknown" "Unknown" 1).brand
        = "Unknown"
    ∧ (ToolChangeEvent.mk 9 "Unknown" "Unknown" "Unknown" "Unknown" 1).material
        = "Unknown"
    ∧ (ToolChangeEvent.mk 9 "Unknown" "Unknown" "Unknown" "Unknown" 1).full_name
        = "Unknown") :=
  ⟨by decide,
   (scan_tool_out_of_range_safe ["; MANUAL_TOOL_CHANGE T9"]).2
     (ToolChangeEvent.mk 9 "Unknown" "Unknown" "Unknown" "Unknown" 1)
     (by decide) (by decide)⟩


/-! Lemmas about `update_tool_change`. -/

lemma pyIndex_in_range {α : Type} (l : List α) (i : Int) (h0 : 0 ≤ i)
    (hlt : i < (l.length : Int)) :
    pyIndex l i = l.get? i.toNat := by
  unfold pyIndex
  rw [if_neg (by omega : ¬ i < 0), if_pos ⟨h0, hlt⟩]

lemma pyIndex_out_of_range {α : Type} (l : List α) (i : Int) (h0 : 0 ≤ i)
    (hge : (l.length : Int) ≤ i) :
    pyIndex l i = none := by
  unfold pyIndex
  rw [if_neg (by omega : ¬ i < 0)]
  exact if_neg (by omega)

lemma update_tool_change_completed (d : ProgressState)
    (h : d.total_changes ≤ d.current_change) :
    update_tool_change d = .completed := by
  unfold update_tool_change
  exact if_pos h

lemma update_tool_change_report (d : ProgressState)
    (h0 : 0 ≤ d.current_change) (hlt : d.current_change < d.total_changes)
    (hlen : d.total_changes ≤ (d.changes.length : Int)) :
    update_tool_change d
      = .report (d.changes.getD d.current_change.toNat default)
          { d with current_change := d.current_change + 1 } := by
  unfold update_tool_change
  rw [if_neg (by omega : ¬ d.total_changes ≤ d.current_change)]
  have hsimp : d.current_change + 1 - 1 = d.current_change := by ring
  rw [hsimp, pyIndex_in_range d.changes d.current_change h0 (by omega)]
  have hr : d.current_change.toNat < d.changes.length := by omega
  rw [List.get?_eq_get hr]
  rw [List.getD_eq_get?, List.get?_eq_get hr]
  rfl

lemma update_tool_change_crash (d : ProgressState)
    (hlt : d.current_change < d.total_changes)
    (hlen : (d.changes.length : Int) ≤ d.current_change) :
    update_tool_change d = .indexCrash := by
  unfold update_tool_change
  rw [if_neg (by omega : ¬ d.total_changes ≤ d.current_change)]
  have h0 : (0 : Int) ≤ d.current_change := by
    have : (0 : Int) ≤ (d.changes.length : Int) := Int.natCast_nonneg _
    omega
  have hsimp : d.current_change + 1 - 1 = d.current_change := by ring
  rw [hsimp, pyIndex_out_of_range d.changes d.current_change h0 hlen]

lemma update_tool_change_report_inversion (d : ProgressState)
    (e : ToolChangeEvent) (d' : ProgressState)
    (h : update_tool_change d = .report e d') :
    d.current_change < d.total_changes
      ∧ d' = { d with current_change := d.current_change + 1 } := by
  unfold update_tool_change at h
  by_cases hc : d.total_changes ≤ d.current_change
  · rw [if_pos hc] at h
    exact absurd h (by intro hcontra; cases hcontra)
  · rw [if_neg hc] at h
    rcases hp : pyIndex d.changes (d.current_change + 1 - 1) with _ | x
    · rw [hp] at h
      exact absurd h (by intro hcontra; cases hcontra)
    · rw [hp] at h
      injection h with h1 h2
      exact ⟨by omega, h2.symm⟩


/-- Claim C10: on a document whose cursor is below the total but whose
`changes` list has fewer than `current_change + 1` entries, the advance
invocation dies on the list indexing — an uncaught `IndexError`, hence a
non-zero exit — and writes nothing: the increment existed only in memory
and the indexing precedes the file write, so the persisted document is
untouched. -/
theorem advance_short_changes_crashes (d : ProgressState)
    (hlt : d.current_change < d.total_changes)
    (hshort : (d.changes.length : Int) < d.current_change + 1) :
    update_tool_change d = .indexCrash ∧ advanceWriteTrace d = [] := by
  have hcrash : update_tool_change d = .indexCrash :=
    update_tool_change_crash d hlt (by omega)
  refine ⟨hcrash, ?_⟩
  unfold advanceWriteTrace
  rw [hcrash]

/-- Witness for C10: the concrete document with total 2, cursor 0 and an
empty event list crashes and leaves no write. -/
theorem advance_short_changes_crashes_witness :
    update_tool_change { total_changes := 2, current_change := 0, changes := [] }
        = .indexCrash
  ∧ advanceWriteTrace
        { total_changes := 2, current_change := 0, changes := [] } = [] :=
  advance_short_changes_crashes
    { total_changes := 2, current_change := 0, changes := [] }
    (by decide) (by decide)

/-- Claim C5: the invariant `0 ≤ current_change ≤ total_changes` holds in
every state the operations produce — a fresh scan writes cursor 0 (and a
non-negative total), and a successful advance increments the cursor only
from below the total, so the cursor never exceeds it. -/
theorem scan_and_advance_keep_invariant (lines : List String)
    (d : ProgressState) :
    ((pre_scan_gcode lines).current_change = 0
      ∧ stateInv (pre_scan_gcode lines))
  ∧ (∀ e d', stateInv d → update_tool_change d = .report e d' →
      stateInv d') := by
  constructor
  · refine ⟨rfl, le_refl 0, ?_⟩
    exact Int.natCast_nonneg _
  · intro e d' hinv hrep
    obtain ⟨hlt, hd'⟩ := update_tool_change_report_inversion d e d' hrep
    subst hd'
    constructor
    · show (0 : Int) ≤ d.current_change + 1
      have := hinv.1
      omega
    · show d.current_change + 1 ≤ d.total_changes
      omega

/-- Witness for C5: the invariant after scanning a one-marker file and
after one successful advance on a well-formed one-event document. -/
theorem scan_and_advance_keep_invariant_witness :
    stateInv (pre_scan_gcode ["; MANUAL_TOOL_CHANGE T0"])
  ∧ stateInv
      { total_changes := 1, current_change := 1,
        changes :=
          [{ tool_number := 0, color := "Red", brand := "B", material := "M",
             full_name := "F", line := 10 }] } :=
  ⟨(scan_and_advance_keep_invariant ["; MANUAL_TOOL_CHANGE T0"]
      { total_changes := 0, current_change := 0, changes := [] }).1.2,
   (scan_and_advance_keep_invariant ["; MANUAL_TOOL_CHANGE T0"]
      { total_changes := 1, current_change := 0,
        changes :=
          [{ tool_number := 0, color := "Red", brand := "B", material := "M",
             full_name := "F", line := 10 }] }).2
     { tool_number := 0, color := "Red", brand := "B", material := "M",
       full_name := "F", line := 10 }
     { total_changes := 1, current_change := 1,
       changes :=
         [{ tool_number := 0, color := "Red", brand := "B", material := "M",
            full_name := "F", line := 10 }] }
     (by decide) (by decide)⟩

/-! Iterating the advance operation from a freshly scanned document. -/

lemma iterAdvance_scan (fi : List FilamentInfo) (lines : List String)
    (k : Nat) :
    iterAdvance (scanDocument fi lines) k
      = { scanDocument fi lines with
          current_change :=
            min (k : Int) ((scanAux fi lines 1).length : Int) } := by
  induction k with
  | zero =>
    have hmin : min ((0 : Nat) : Int) ((scanAux fi lines 1).length : Int) = 0 :=
      min_eq_left (Int.natCast_nonneg _)
    simp only [iterAdvance, hmin]
    rfl
  | succ k ih =>
    simp only [iterAdvance, ih]
    by_cases hk : (k : Int) < ((scanAux fi lines 1).length : Int)
    · have hmin : min ((k : Nat) : Int) ((scanAux fi lines 1).length : Int)
          = (k : Int) := min_eq_left (by omega)
      rw [hmin]
      have hrep := update_tool_change_report
        { scanDocument fi lines with current_change := (k : Int) }
        (by exact Int.natCast_nonneg _) (by exact hk) (by exact le_refl _)
      rw [hrep]
      have hmin2 : min (((k + 1 : Nat)) : Int)
          ((scanAux fi lines 1).length : Int) = (k : Int) + 1 := by
        rw [min_eq_left (by push_cast; omega)]
        push_cast
        ring
      rw [hmin2]
    · have hmin : min ((k : Nat) : Int) ((scanAux fi lines 1).length : Int)
          = ((scanAux fi lines 1).length : Int) := min_eq_right (by omega)
      rw [hmin]
      have hcompl := update_tool_change_completed
        { scanDocument fi lines with
          current_change := ((scanAux fi lines 1).length : Int) }
        (le_refl _)
      rw [hcompl]
      have hmin2 : min (((k + 1 : Nat)) : Int)
          ((scanAux fi lines 1).length : Int)
          = ((scanAux fi lines 1).length : Int) := by
        rw [min_eq_right (by push_cast; omega)]
      rw [hmin2]


/-- Claim C1: after a fresh scan with `total_changes = T`, the N-th
(1-indexed) advance invocation for `1 ≤ N ≤ T` increments the cursor by
exactly 1 (to N), persists the updated document (an in-place write of that
document), and reports the event `changes[N-1]` (the `getD` access is within
range because `len(changes) = T`); every invocation with `N > T` reports
completion and performs no write at all. -/
theorem advance_reports_events_in_order (lines : List String) (N : Nat)
    (hN : 1 ≤ N) :
    (N ≤ (pre_scan_gcode lines).changes.length →
        nthAdvance (pre_scan_gcode lines) N
            = .report ((pre_scan_gcode lines).changes.getD (N - 1) default)
              { pre_scan_gcode lines with current_change := (N : Int) }
      ∧ advanceWriteTrace (iterAdvance (pre_scan_gcode lines) (N - 1))
            = [.writeTargetInPlace
                { pre_scan_gcode lines with current_change := (N : Int) }])
  ∧ ((pre_scan_gcode lines).changes.length < N →
        nthAdvance (pre_scan_gcode lines) N = .completed
      ∧ advanceWriteTrace (iterAdvance (pre_scan_gcode lines) (N - 1)) = []) := by
  set fi := extract_filament_info lines with hfi
  have hpre : pre_scan_gcode lines = scanDocument fi lines := rfl
  have hlen : (pre_scan_gcode lines).changes.length
      = (scanAux fi lines 1).length := rfl
  have hiter := iterAdvance_scan fi lines (N - 1)
  constructor
  · intro hle
    have hmin : min (((N - 1 : Nat)) : Int) ((scanAux fi lines 1).length : Int)
        = ((N - 1 : Nat) : Int) := by
      rw [min_eq_left]
      rw [hlen] at hle
      omega
    have hcur : iterAdvance (pre_scan_gcode lines) (N - 1)
        = { scanDocument fi lines
            with current_change := ((N - 1 : Nat) : Int) } := by
      rw [hpre, hiter, hmin]
    have hrep := update_tool_change_report
      { scanDocument fi lines with current_change := ((N - 1 : Nat) : Int) }
      (Int.natCast_nonneg _)
      (by show ((N - 1 : Nat) : Int) < ((scanAux fi lines 1).length : Int)
          rw [hlen] at hle; omega)
      (le_refl _)
    have hcast : ((N - 1 : Nat) : Int) + 1 = (N : Int) := by omega
    have htoNat : ((N - 1 : Nat) : Int).toNat = N - 1 := Int.toNat_natCast _
    constructor
    · show update_tool_change (iterAdvance (pre_scan_gcode lines) (N - 1)) = _
      rw [hcur, hrep, htoNat, hcast]
      rfl
    · unfold advanceWriteTrace
      rw [hcur, hrep, htoNat, hcast]
      rfl
  · intro hgt
    have hmin : min (((N - 1 : Nat)) : Int) ((scanAux fi lines 1).length : Int)
        = ((scanAux fi lines 1).length : Int) := by
      rw [min_eq_right]
      rw [hlen] at hgt
      omega
    have hcur : iterAdvance (pre_scan_gcode lines) (N - 1)
        = { scanDocument fi lines
            with current_change := ((scanAux fi lines 1).length : Int) } := by
      rw [hpre, hiter, hmin]
    have hcompl := update_tool_change_completed
      { scanDocument fi lines
        with current_change := ((scanAux fi lines 1).length : Int) }
      (le_refl _)
    constructor
    · show update_tool_change (iterAdvance (pre_scan_gcode lines) (N - 1)) = _
      rw [hcur, hcompl]
    · unfold advanceWriteTrace
      rw [hcur, hcompl]

/-- Witness for C1: on a freshly scanned two-marker file, invocation 1
reports `changes[0]` and persists cursor 1; invocation 3 reports
completion with no write. -/
theorem advance_reports_events_in_order_witness :
    (nthAdvance (pre_scan_gcode
          ["; MANUAL_TOOL_CHANGE T0", "; MANUAL_TOOL_CHANGE T1"]) 1
        = .report ((pre_scan_gcode
            ["; MANUAL_TOOL_CHANGE T0", "; MANUAL_TOOL_CHANGE T1"]).changes.getD
              0 default)
          { pre_scan_gcode
              ["; MANUAL_TOOL_CHANGE T0", "; MANUAL_TOOL_CHANGE T1"] with
            current_change := 1 })
  ∧ nthAdvance (pre_scan_gcode
        ["; MANUAL_TOOL_CHANGE T0", "; MANUAL_TOOL_CHANGE T1"]) 3
      = .completed :=
  ⟨((advance_reports_events_in_order
      ["; MANUAL_TOOL_CHANGE T0", "; MANUAL_TOOL_CHANGE T1"] 1
      (by decide)).1 (by decide)).1,
   ((advance_reports_events_in_order
      ["; MANUAL_TOOL_CHANGE T0", "; MANUAL_TOOL_CHANGE T1"] 3
      (by decide)).2 (by decide)).1⟩


/-- Claim C3: the store's load operation `safe_read_json` is total — for a
missing file, unparsable contents (`none` input), a non-mapping document,
missing required keys, or keys of the wrong coarse type (all of which are
exactly `docSchemaOk = false`), it returns the canonical empty default
instead of raising; a schema-valid document is returned unchanged, and the
result is schema-valid in every case. -/
theorem safe_read_json_never_fails (file : Option JVal) :
    (file = none → safe_read_json file = default_data)
  ∧ (∀ v, file = some v → docSchemaOk v = false →
      safe_read_json file = default_data)
  ∧ (∀ v, file = some v → docSchemaOk v = true → safe_read_json file = v)
  ∧ docSchemaOk (safe_read_json file) = true := by
  refine ⟨?_, ?_, ?_, ?_⟩
  · intro h; rw [h]; rfl
  · intro v hv hbad
    rw [hv]
    show (if docSchemaOk v then v else default_data) = default_data
    rw [hbad]
    rfl
  · intro v hv hgood
    rw [hv]
    show (if docSchemaOk v then v else default_data) = v
    rw [hgood]
    rfl
  · rcases file with _ | v
    · rfl
    · show docSchemaOk (if docSchemaOk v then v else default_data) = true
      by_cases h : docSchemaOk v
      · rw [if_pos h]; exact h
      · rw [if_neg h]; rfl

/-- Witness for C3: a present-but-non-mapping document and a missing file
both load as the default. -/
theorem safe_read_json_never_fails_witness :
    safe_read_json (some (JVal.jstr "oops")) = default_data
  ∧ safe_read_json none = default_data :=
  ⟨(safe_read_json_never_fails (some (JVal.jstr "oops"))).2.1
      (JVal.jstr "oops") rfl rfl,
   (safe_read_json_never_fails none).1 rfl⟩

/-- Counterexample to claim C2: the claim says every write of the persisted
document — by the scan operation and by the advance operation — goes through
the write-temp-then-atomic-rename pattern.  The advance operation's write
does not: on this concrete document the successful advance performs exactly
one plain in-place rewrite of the target (`open(DATA_FILE, "w")` followed by
`json.dump`), which is not the crash-safe pattern. -/
theorem advance_write_not_atomic_counterexample :
    advanceWriteTrace
        { total_changes := 1, current_change := 0,
          changes :=
            [{ tool_number := 0, color := "Red", brand := "Generic",
               material := "PLA", full_name := "Generic PLA", line := 7 }] }
      ≠ []
  ∧ isAtomicWritePattern
        (advanceWriteTrace
          { total_changes := 1, current_change := 0,
            changes :=
              [{ tool_number := 0, color := "Red", brand := "Generic",
                 material := "PLA", full_name := "Generic PLA", line := 7 }] })
      = false := by
  constructor
  · decide
  · decide

/-- Claim C2 as amended: the scan operation's write is crash-safe — its
trace is exactly write-to-a-temp-file-in-the-target-directory followed by an
atomic rename, so an interruption before the rename leaves the previous
document intact — but the advance operation's write is a single plain
in-place rewrite of the target file. -/
theorem scan_write_atomic_advance_write_in_place (lines : List String)
    (d : ProgressState) :
    isAtomicWritePattern (scanWriteTrace lines) = true
  ∧ (∀ e d', update_tool_change d = .report e d' →
      advanceWriteTrace d = [.writeTargetInPlace d']) := by
  constructor
  · rfl
  · intro e d' hrep
    unfold advanceWriteTrace
    rw [hrep]

/-- Witness for C2's amended statement: concrete scan and advance traces. -/
theorem scan_write_atomic_advance_write_in_place_witness :
    isAtomicWritePattern (scanWriteTrace ["; MANUAL_TOOL_CHANGE T0"]) = true
  ∧ advanceWriteTrace
        { total_changes := 1, current_change := 0,
          changes :=
            [{ tool_number := 0, color := "Blue", brand := "B",
               material := "M", full_name := "F", line := 3 }] }
      = [.writeTargetInPlace
          { total_changes := 1, current_change := 1,
            changes :=
              [{ tool_number := 0, color := "Blue", brand := "B",
                 material := "M", full_name := "F", line := 3 }] }] :=
  ⟨(scan_write_atomic_advance_write_in_place ["; MANUAL_TOOL_CHANGE T0"]
      { total_changes := 0, current_change := 0, changes := [] }).1,
   (scan_write_atomic_advance_write_in_place ["; MANUAL_TOOL_CHANGE T0"]
      { total_changes := 1, current_change := 0,
        changes :=
          [{ tool_number := 0, color := "Blue", brand := "B",
             material := "M", full_name := "F", line := 3 }] }).2
     { tool_number := 0, color := "Blue", brand := "B", material := "M",
       full_name := "F", line := 3 }
     { total_changes := 1, current_change := 1,
       changes :=
         [{ tool_number := 0, color := "Blue", brand := "B",
            material := "M", full_name := "F", line := 3 }] }
     (by decide)⟩


/-! Lemmas about the classifier loop. -/

lemma cssStep_ne_none (rgb : Int × Int × Int) (acc : Option (String × Int))
    (rgb2 : Int × Int × Int) (name : String) :
    cssStep rgb acc rgb2 name ≠ none := by
  rcases acc with _ | ⟨n, m⟩
  · exact fun h => Option.noConfusion h
  · simp only [cssStep]
    by_cases hd : distSq rgb rgb2 < m
    · rw [if_pos hd]; exact fun h => Option.noConfusion h
    · rw [if_neg hd]; exact fun h => Option.noConfusion h

lemma cssStep_name (rgb : Int × Int × Int) (acc : Option (String × Int))
    (rgb2 : Int × Int × Int) (name n : String) (m : Int)
    (h : cssStep rgb acc rgb2 name = some (n, m)) :
    n = name ∨ ∃ m0, acc = some (n, m0) := by
  rcases acc with _ | ⟨n0, m0⟩
  · simp only [cssStep] at h
    injection h with h1
    exact Or.inl (congrArg Prod.fst h1).symm
  · simp only [cssStep] at h
    by_cases hd : distSq rgb rgb2 < m0
    · rw [if_pos hd] at h
      injection h with h1
      exact Or.inl (congrArg Prod.fst h1).symm
    · rw [if_neg hd] at h
      injection h with h1
      have : n0 = n := congrArg Prod.fst h1
      exact Or.inr ⟨m0, by rw [this]⟩

lemma cssLoop_cons_parsed (rgb : Int × Int × Int) (cssHex name : String)
    (rest : List (String × String)) (acc : Option (String × Int))
    (rgb2 : Int × Int × Int) (h : hexTriple cssHex = some rgb2) :
    cssLoop rgb ((cssHex, name) :: rest) acc
      = cssLoop rgb rest (cssStep rgb acc rgb2 name) := by
  simp [cssLoop, h]

lemma cssLoop_cons_failed (rgb : Int × Int × Int) (cssHex name : String)
    (rest : List (String × String)) (acc : Option (String × Int))
    (h : hexTriple cssHex = none) :
    cssLoop rgb ((cssHex, name) :: rest) acc = none := by
  simp [cssLoop, h]

lemma cssLoop_name_source (rgb : Int × Int × Int) :
    ∀ (l : List (String × String)) (acc : Option (String × Int))
      (n : String) (d : Int),
      cssLoop rgb l acc = some (some (n, d)) →
        n ∈ l.map Prod.snd ∨ ∃ m, acc = some (n, m)
  | [], acc, n, d => by
    intro h
    injection h with h1
    exact Or.inr ⟨d, h1⟩
  | (cssHex, name) :: rest, acc, n, d => by
    intro h
    rcases ht : hexTriple cssHex with _ | rgb2
    · rw [cssLoop_cons_failed rgb cssHex name rest acc ht] at h
      cases h
    · rw [cssLoop_cons_parsed rgb cssHex name rest acc rgb2 ht] at h
      rcases cssLoop_name_source rgb rest (cssStep rgb acc rgb2 name) n d h with
        hmem | ⟨m, hacc⟩
      · exact Or.inl (by simp only [List.map_cons]; exact List.mem_cons_of_mem _ hmem)
      · rcases cssStep_name rgb acc rgb2 name n m hacc with h1 | h2
        · exact Or.inl (by simp only [List.map_cons, h1]; exact List.mem_cons_self _ _)
        · exact Or.inr h2

lemma cssLoop_succeeds (rgb : Int × Int × Int) :
    ∀ (l : List (String × String)) (acc : Option (String × Int)),
      (∀ p ∈ l, hexTriple p.1 ≠ none) → (acc ≠ none ∨ l ≠ []) →
        ∃ n d, cssLoop rgb l acc = some (some (n, d))
  | [], acc, _, hne => by
    rcases acc with _ | ⟨n, d⟩
    · rcases hne with h | h
      · exact absurd rfl h
      · exact absurd rfl h
    · exact ⟨n, d, rfl⟩
  | (cssHex, name) :: rest, acc, hall, _ => by
    rcases ht : hexTriple cssHex with _ | rgb2
    · exact absurd ht (hall (cssHex, name) (List.mem_cons_self _ _))
    · rw [cssLoop_cons_parsed rgb cssHex name rest acc rgb2 ht]
      exact cssLoop_succeeds rgb rest (cssStep rgb acc rgb2 name)
        (fun p hp => hall p (List.mem_cons_of_mem _ hp))
        (Or.inl (cssStep_ne_none rgb acc rgb2 name))

lemma closest_css_color_cases (s : String) :
    closest_css_color s = "Unknown"
      ∨ closest_css_color s ∈ CSS_NAMED_COLORS.map Prod.snd := by
  rcases ht : hexTriple s with _ | rgb
  · exact Or.inl (by simp [closest_css_color, ht])
  · rcases hl : cssLoop rgb CSS_NAMED_COLORS none with _ | r
    · exact Or.inl (by simp [closest_css_color, ht, hl])
    · rcases r with _ | ⟨n, d⟩
      · exact Or.inl (by simp [closest_css_color, ht, hl])
      · have hmem : n ∈ CSS_NAMED_COLORS.map Prod.snd := by
          rcases cssLoop_name_source rgb CSS_NAMED_COLORS none n d hl with
            h | ⟨m, hm⟩
          · exact h
          · cases hm
        by_cases hn : n = ""
        · exact Or.inl (by simp [closest_css_color, ht, hl, hn])
        · refine Or.inr ?_
          have : closest_css_color s = n := by
            simp [closest_css_color, ht, hl, hn]
          rw [this]
          exact hmem


/-- Claim C9: the classifier can never return `"Fuchsia"`.  The source dict
literal contains the key `"#FF00FF"` twice, so the effective table — which
the claim's equality here ties to the literal pairs under Python dict
construction — holds `"Magenta"` in the original `"Fuchsia"` slot, the name
`"Fuchsia"` is absent from the iterated table, and every classifier result
is either `"Unknown"` or a name of the effective table. -/
theorem fuchsia_never_returned :
    CSS_NAMED_COLORS = cssSourcePairs.foldl pyDictInsert []
  ∧ (cssSourcePairs.map Prod.fst).count "#FF00FF" = 2
  ∧ ("#FF00FF", "Magenta") ∈ CSS_NAMED_COLORS
  ∧ "Fuchsia" ∉ CSS_NAMED_COLORS.map Prod.snd
  ∧ ∀ s, closest_css_color s ≠ "Fuchsia" := by
  refine ⟨by decide, by decide, by decide, by decide, ?_⟩
  intro s hcontra
  rcases closest_css_color_cases s with h | h
  · rw [hcontra] at h
    exact absurd h (by decide)
  · rw [hcontra] at h
    exact absurd h (by decide)

/-- Counterexample to claim C6: a malformed input of wrong length (8
characters, so too long) is not mapped to `"Unknown"` — the decoder slices
`hex_color[1:3]`, `[3:5]`, `[5:7]`, which never look at characters beyond
position 6, so `"#000000X"` decodes as black and is classified `"Black"`. -/
theorem too_long_hex_classified_counterexample :
    "#000000X".length = 8
  ∧ closest_css_color "#000000X" = "Black"
  ∧ closest_css_color "#000000X" ≠ "Unknown" := by
  refine ⟨by decide, by decide, by decide⟩

/-- Claim C6 as amended: the classifier returns `"Unknown"` (and never
raises) exactly when decoding the three 2-character slices at positions
1-2, 3-4, 5-6 fails — in particular for every string of length at most 5,
where the last slice is empty.  Too-long strings, and strings whose slices
parse despite non-hex trailing characters, are classified normally from
positions 1-6. -/
theorem classifier_unknown_iff_parse_failure (s : String) :
    (s.length ≤ 5 → closest_css_color s = "Unknown")
  ∧ (closest_css_color s = "Unknown" ↔ hexTriple s = none) := by
  have hiff : closest_css_color s = "Unknown" ↔ hexTriple s = none := by
    constructor
    · intro h
      by_contra hne
      rcases Option.ne_none_iff_exists'.mp hne with ⟨rgb, hrgb⟩
      have hall : ∀ p ∈ CSS_NAMED_COLORS, hexTriple p.1 ≠ none := by decide
      obtain ⟨n, d, hl⟩ := cssLoop_succeeds rgb CSS_NAMED_COLORS none hall
        (Or.inr (by decide))
      have hmem : n ∈ CSS_NAMED_COLORS.map Prod.snd := by
        rcases cssLoop_name_source rgb CSS_NAMED_COLORS none n d hl with
          hm | ⟨m, hm⟩
        · exact hm
        · cases hm
      have hne2 : n ≠ "" := fun he => absurd (he ▸ hmem) (by decide)
      have hnu : n ≠ "Unknown" := fun he => absurd (he ▸ hmem) (by decide)
      have hval : closest_css_color s = n := by
        simp [closest_css_color, hrgb, hl, hne2]
      rw [hval] at h
      exact hnu h
    · intro h
      simp [closest_css_color, h]
  refine ⟨?_, hiff⟩
  intro hlen
  apply hiff.mpr
  have hdata : s.data.length ≤ 5 := hlen
  have hdrop : s.data.drop 5 = [] := List.drop_eq_nil_of_le hdata
  have hslice : pySlice s 5 7 = "" := by
    unfold pySlice
    rw [hdrop]
    rfl
  unfold hexTriple
  rw [hslice]
  rcases pyInt16 (pySlice s 1 3) with _ | a <;>
    rcases pyInt16 (pySlice s 3 5) with _ | b <;> rfl

/-- Witness for C6's amended statement at a concrete 5-character input. -/
theorem classifier_unknown_iff_parse_failure_witness :
    closest_css_color "#0000" = "Unknown" :=
  (classifier_unknown_iff_parse_failure "#0000").1 (by decide)

/-- Counterexample to claim C7: on a file yielding no metadata from either
source, the fallback list's hex placeholders are the f-string values
`"#0"` … `"#4"`, not `"Unknown"` as the claim states. -/
theorem default_hex_not_unknown_counterexample :
    collectSources [] [] [] = some ([], [])
  ∧ (extract_filament_info []).map (fun i => i.hex_color)
        = ["#0", "#1", "#2", "#3", "#4"]
  ∧ ¬ ((extract_filament_info []).map (fun i => i.hex_color)
        = ["Unknown", "Unknown", "Unknown", "Unknown", "Unknown"]) := by
  refine ⟨by decide, by decide, by decide⟩

/-- Claim C7 as amended: when neither marker source yields an entry (or the
extraction aborts on a parse exception), the extractor returns the fixed
5-slot default list with names Yellow, Blue, Silver, Green, White by index,
hex placeholders `"#0"` … `"#4"`, and brand, material and full_name all
`"Unknown"`. -/
theorem default_filament_list_when_no_metadata (lines : List String)
    (h : collectSources lines [] [] = some ([], [])
        ∨ collectSources lines [] [] = none) :
    extract_filament_info lines = defaultFilamentInfo
  ∧ (defaultFilamentInfo.map fun i => i.color_name)
        = ["Yellow", "Blue", "Silver", "Green", "White"]
  ∧ (defaultFilamentInfo.map fun i => i.hex_color)
        = ["#0", "#1", "#2", "#3", "#4"]
  ∧ defaultFilamentInfo.all
        (fun i => i.brand == "Unknown" && i.material == "Unknown"
          && i.full_name == "Unknown") = true := by
  refine ⟨?_, by decide, by decide, by decide⟩
  unfold extract_filament_info
  rcases h with h | h
  · rw [h]; decide
  · rw [h]; decide

/-- Witness for C7's amended statement: a file with one unrelated line. -/
theorem default_filament_list_when_no_metadata_witness :
    collectSources ["hello"] [] [] = some ([], [])
  ∧ extract_filament_info ["hello"] = defaultFilamentInfo :=
  ⟨by decide,
   (default_filament_list_when_no_metadata ["hello"] (Or.inl (by decide))).1⟩

end ToolChange
